import Mathlib

/-!
Shallow embedding of the Express server of the FSD-Project music playlist
application.  The server keeps two Mongo collections (Playlist, Song) and a
directory of uploaded audio blobs; the HTTP handlers are modelled as pure
state transformers over a `DB` record.  External collaborators are modelled
by their call contracts: the metadata extractor as an `Except`-valued input,
the multer disk storage as the generated-filename parameter, unlink failures
of the filesystem as a boolean oracle on paths.
-/

namespace MusicApp

/-! ### JavaScript string primitives used by the server -/

/-- JS `String.prototype.padStart(n, c)`. -/
def padStart (s : String) (n : Nat) (c : Char) : String :=
  if n ≤ s.length then s else String.mk (List.replicate (n - s.length) c) ++ s

/-- JS `a || b` on an optional string: the fallback is taken when the value
is absent or empty (both are falsy in JS). -/
def jsOrStr (v : Option String) (alt : String) : String :=
  match v with
  | none => alt
  | some s => if s = "" then alt else s

/-- Whether the pattern is an initial segment of the character list. -/
def beginsWith : List Char → List Char → Bool
  | [], _ => true
  | _ :: _, [] => false
  | p :: ps, c :: cs => p == c && beginsWith ps cs

/-- Whether the pattern occurs as a contiguous sublist. -/
def hasSubList (pat : List Char) : List Char → Bool
  | [] => beginsWith pat []
  | c :: cs => beginsWith pat (c :: cs) || hasSubList pat cs

/-- JS `regex.test` for an unanchored literal alternative: substring test. -/
def strContains (s pat : String) : Bool := hasSubList pat.data s.data

/-- JS `s.startsWith(pat)`. -/
def jsStartsWith (s pat : String) : Bool := beginsWith pat.data s.data

/-- JS `s.toLowerCase()` (ASCII range, which is all the server compares). -/
def jsToLower (s : String) : String := String.mk (s.data.map Char.toLower)

/-- Index of the last occurrence of a character. -/
def lastIdxOf (c : Char) : List Char → Option Nat
  | [] => none
  | x :: xs =>
    match lastIdxOf c xs with
    | some i => some (i + 1)
    | none => if x == c then some 0 else none

/-- Characters of the basename: everything after the last slash. -/
def basenameChars (s : String) : List Char :=
  match lastIdxOf '/' s.data with
  | some i => s.data.drop (i + 1)
  | none => s.data

/-- Node `path.extname`: the extension of the basename including the dot,
empty when the basename has no dot or only a leading dot. -/
def extname (s : String) : String :=
  let base := basenameChars s
  match lastIdxOf '.' base with
  | none => ""
  | some 0 => ""
  | some i => String.mk (base.drop i)

/-- JS `name.replace` of the anchored pattern dot-then-nonempty-run of
characters other than dot and slash: strips the final extension when one is
present, otherwise leaves the name unchanged (server.js line 556). -/
def stripDotExt (s : String) : String :=
  match lastIdxOf '.' s.data with
  | none => s
  | some i =>
    let rest := s.data.drop (i + 1)
    if !rest.isEmpty && rest.all (fun c => c != '/') then String.mk (s.data.take i)
    else s

/-- JS `s.replace` of one leading slash by the empty string
(server.js line 621). -/
def stripLeadingSlash (s : String) : String :=
  match s.data with
  | '/' :: rest => String.mk rest
  | _ => s

/-! ### Duration arithmetic (server.js lines 558-559)

The extracted duration is a JS number of seconds, possibly fractional,
modelled as a rational.  `Math.floor` is the mathematical floor; the JS `%`
operator is the remainder of truncated division. -/

/-- JS `Math.floor` on a rational. -/
def mathFloor (q : ℚ) : Int := ⌊q⌋

/-- JS truncation toward zero, used by the JS `%` operator. -/
def jsTrunc (q : ℚ) : Int := if q < 0 then -⌊-q⌋ else ⌊q⌋

/-- The JS `%` operator: remainder of division truncated toward zero. -/
def jsRem (x y : ℚ) : ℚ := x - y * (jsTrunc (x / y) : ℚ)

/-- server.js line 559: minutes, colon, seconds zero-padded to two digits. -/
def formatDuration (ds : ℚ) : String :=
  toString (mathFloor (ds / 60)) ++ ":" ++ padStart (toString (mathFloor (jsRem ds 60))) 2 '0'

/-- The duration text exactly as the specification words it:
floor of ds over 60, a colon, and the 2-digit zero-padded floor of the
mathematical remainder of ds modulo 60. -/
def specDurationText (ds : ℚ) : String :=
  toString ⌊ds / 60⌋ ++ ":" ++ padStart (toString ⌊ds - 60 * (⌊ds / 60⌋ : ℚ)⌋) 2 '0'

/-! ### Data model -/

/-- A row of the Playlist collection (playlistSchema). -/
structure Playlist where
  id : String
  name : String
  creator : String
  createdAt : Nat
deriving DecidableEq, Repr

/-- A row of the Song collection (songSchema). -/
structure Song where
  id : String
  title : String
  artist : String
  duration : String
  audioFile : String
  playlistId : String
deriving DecidableEq, Repr

/-- Output contract of the metadata extractor (music-metadata): each field
best-effort, absent when the file carries no such tag. -/
structure SongMeta where
  title : Option String
  artist : Option String
  duration : Option ℚ
deriving DecidableEq, Repr

/-- The persistent state: the two record collections plus the set of blob
paths present in the uploads directory. -/
structure DB where
  playlists : List Playlist
  songs : List Song
  blobs : List String
deriving DecidableEq, Repr

/-- An HTTP response: a success payload or an error body with its status. -/
inductive ApiResult (α : Type) where
  | ok (status : Nat) (val : α)
  | err (status : Nat) (msg : String)
deriving DecidableEq, Repr

/-- A multipart file part as multer hands it over. -/
structure FileUpload where
  originalname : String
  mimetype : String
  size : Nat
deriving DecidableEq, Repr

/-- Mongoose succeeds in casting a string to an ObjectId exactly for
24-character hex strings; anything else raises a CastError. -/
def isValidObjectId (s : String) : Bool :=
  s.data.length == 24 && s.data.all fun c =>
    ('0' ≤ c && c ≤ '9') || ('a' ≤ c && c ≤ 'f') || ('A' ≤ c && c ≤ 'F')

/-! ### Upload pipeline (server.js lines 414-439) -/

/-- The regex alternative mp3 or wav or ogg or m4a, tested unanchored. -/
def allowedTypesTest (s : String) : Bool :=
  strContains s "mp3" || strContains s "wav" || strContains s "ogg" || strContains s "m4a"

/-- The multer fileFilter (server.js lines 427-437): the lowercased
extension must match the allow-list, and the declared MIME type must match
the allow-list or start with the literal audio slash. -/
def fileFilterOk (originalname mimetype : String) : Bool :=
  let extOk := allowedTypesTest (jsToLower (extname originalname))
  let mimeOk := allowedTypesTest mimetype || jsStartsWith mimetype "audio/"
  mimeOk && extOk

/-- The 10 MiB multer fileSize limit (server.js line 438). -/
def MAX_FILE_SIZE : Nat := 10 * 1024 * 1024

/-- The disk-storage filename: unique suffix plus the original extension
(server.js lines 419-422). -/
def storedFilename (uniqueSuffix originalname : String) : String :=
  uniqueSuffix ++ extname originalname

/-! ### Derived Song fields (server.js lines 556-559) -/

/-- Extracted title, else the original filename minus its extension. -/
def songTitle (meta : SongMeta) (originalname : String) : String :=
  jsOrStr meta.title (stripDotExt originalname)

/-- Extracted artist, else the literal Unknown Artist. -/
def songArtist (meta : SongMeta) : String :=
  jsOrStr meta.artist "Unknown Artist"

/-- Formatted duration of the extracted seconds, defaulted to 0. -/
def songDurationText (meta : SongMeta) : String :=
  formatDuration (meta.duration.getD 0)

/-! ### POST /api/songs (server.js lines 543-577)

Multer runs first: a file part failing the fileFilter aborts the request
before any bytes reach the uploads directory, as does exceeding the size
cap.  Otherwise the blob is stored, the extractor runs on the stored blob,
and the Song row is inserted; mongoose validation requires a castable
playlistId and a nonempty title.  Any error after the blob was stored
leaves it in place. -/

def apiAddSong (db : DB) (playlistId : Option String) (file : Option FileUpload)
    (uniqueSuffix : String) (extracted : Except String SongMeta) (newSongId : String) :
    ApiResult Song × DB :=
  match file with
  | none => (.err 400 "No audio file uploaded", db)
  | some f =>
    if fileFilterOk f.originalname f.mimetype then
      if MAX_FILE_SIZE < f.size then
        (.err 500 "File too large", db)
      else
        let fname := storedFilename uniqueSuffix f.originalname
        let db1 : DB := { db with blobs := ("uploads/" ++ fname) :: db.blobs }
        match extracted with
        | .error e => (.err 500 e, db1)
        | .ok meta =>
          let title := songTitle meta f.originalname
          match playlistId with
          | none => (.err 500 "Song validation failed: playlistId is required", db1)
          | some pid =>
            if isValidObjectId pid ∧ title ≠ "" then
              let song : Song :=
                ⟨newSongId, title, songArtist meta, songDurationText meta,
                 "/uploads/" ++ fname, pid⟩
              (.ok 201 song, { db1 with songs := db1.songs ++ [song] })
            else
              (.err 500 "Song validation failed", db1)
    else
      (.err 500 "Only audio files are allowed", db)

/-! ### GET /api/playlists (server.js lines 519-526) -/

/-- The sort key: descending creation time. -/
def newestFirst (a b : Playlist) : Prop := b.createdAt ≤ a.createdAt

instance : DecidableRel newestFirst := fun a b => Nat.decLe b.createdAt a.createdAt

instance : IsTotal Playlist newestFirst :=
  ⟨fun a b => Nat.le_total b.createdAt a.createdAt⟩

instance : IsTrans Playlist newestFirst :=
  ⟨fun _ _ _ h1 h2 => Nat.le_trans h2 h1⟩

/-- Playlist.find().sort(createdAt descending). -/
def apiGetPlaylists (db : DB) : List Playlist :=
  db.playlists.insertionSort newestFirst

/-! ### GET /api/playlists/:id (server.js lines 580-602) -/

def apiGetPlaylistById (db : DB) (id : String) : ApiResult (Playlist × List Song) :=
  if isValidObjectId id then
    match db.playlists.find? (fun p => decide (p.id = id)) with
    | none => .err 404 "Playlist not found"
    | some p => .ok 200 (p, db.songs.filter (fun s => decide (s.playlistId = id)))
  else
    .err 500 "Cast to ObjectId failed"

/-! ### DELETE /api/playlists/:id (server.js lines 605-636) -/

/-- The songs of one playlist, in store order. -/
def songsFor (songs : List Song) (id : String) : List Song :=
  songs.filter fun s => decide (s.playlistId = id)

/-- The per-song blob cleanup loop (server.js lines 619-626): for each song
with a nonempty audioFile, when the file exists it is unlinked; a throwing
unlink escapes the loop.  Returns the first raised error, if any, together
with the blob directory as it stands at that point. -/
def cascadeUnlink (unlinkThrows : String → Bool) :
    List Song → List String → Option String × List String
  | [], blobs => (none, blobs)
  | s :: rest, blobs =>
    if s.audioFile = "" then cascadeUnlink unlinkThrows rest blobs
    else
      let p := stripLeadingSlash s.audioFile
      if p ∈ blobs then
        if unlinkThrows p then (some "EPERM: operation not permitted, unlink", blobs)
        else cascadeUnlink unlinkThrows rest (blobs.filter fun b => decide (b ≠ p))
      else cascadeUnlink unlinkThrows rest blobs

/-- The handler: delete the playlist row, then unlink the blobs of its
songs, then bulk-delete its song rows; any throw lands in the catch and
answers 500 with the work done so far kept. -/
def apiDeletePlaylist (db : DB) (id : String) (unlinkThrows : String → Bool) :
    ApiResult String × DB :=
  if isValidObjectId id then
    match db.playlists.find? (fun p => decide (p.id = id)) with
    | none => (.err 404 "Playlist not found", db)
    | some _ =>
      let db1 : DB := { db with playlists := db.playlists.filter fun p => decide (p.id ≠ id) }
      match cascadeUnlink unlinkThrows (songsFor db1.songs id) db1.blobs with
      | (some e, blobs2) => (.err 500 e, { db1 with blobs := blobs2 })
      | (none, blobs2) =>
        (.ok 200 "Playlist and all songs deleted successfully",
         { playlists := db1.playlists
           songs := db1.songs.filter fun s => decide (s.playlistId ≠ id)
           blobs := blobs2 })
  else
    (.err 500 "Cast to ObjectId failed", db)

/-! ### Projections of a song-creation response -/

/-- The title of the created song, when the response is a success. -/
def createdTitle : ApiResult Song → Option String
  | .ok _ s => some s.title
  | .err _ _ => none

/-- The playlistId of the created song, when the response is a success. -/
def createdPlaylistId : ApiResult Song → Option String
  | .ok _ s => some s.playlistId
  | .err _ _ => none

/-! ### Concrete inputs used to instantiate the theorems -/

/-- A well-formed 24-hex-character object id. -/
def pidA : String := "aaaaaaaaaaaaaaaaaaaaaaaa"

/-- An empty store. -/
def exDb : DB := ⟨[], [], []⟩

/-- A small untagged-looking audio upload. -/
def trackFile : FileUpload := ⟨"track.mp3", "audio/mpeg", 4⟩

/-- A non-audio upload. -/
def pdfFile : FileUpload := ⟨"document.pdf", "application/pdf", 5⟩

/-- Extractor output with every tag absent. -/
def emptyMeta : SongMeta := ⟨none, none, none⟩

/-- Extractor output with title Foo, artist Bar, duration 125 seconds. -/
def metaFoo : SongMeta := ⟨some "Foo", some "Bar", some 125⟩

/-- Extractor output whose title tag is present but empty. -/
def metaEmptyTitle : SongMeta := ⟨some "", none, none⟩

/-- A playlist holding two songs with stored blobs. -/
def pl1 : Playlist := ⟨pidA, "Road Trip", "DJ Nitin", 5⟩

def s1 : Song := ⟨"s1", "t1", "a1", "0:30", "/uploads/b1.mp3", pidA⟩

def s2 : Song := ⟨"s2", "t2", "a2", "0:30", "/uploads/b2.mp3", pidA⟩

def dbC5 : DB := ⟨[pl1], [s1, s2], ["uploads/b1.mp3", "uploads/b2.mp3"]⟩

/-- A filesystem where unlinking the first blob throws. -/
def failB1 : String → Bool := fun p => decide (p = "uploads/b1.mp3")

/-! ### Helper lemmas -/

theorem cascadeUnlink_no_throws (uf : String → Bool) (h : ∀ b, uf b = false) :
    ∀ (l : List Song) (bs : List String), (cascadeUnlink uf l bs).1 = none := by
  intro l
  induction l with
  | nil => intro bs; rfl
  | cons s rest ih =>
    intro bs
    unfold cascadeUnlink
    by_cases he : s.audioFile = ""
    · simp only [he, if_true]; exact ih bs
    · simp only [he, if_false, if_neg he]
      by_cases hm : stripLeadingSlash s.audioFile ∈ bs
      · simp only [if_pos hm, h, Bool.false_eq_true, if_false]
        exact ih _
      · simp only [if_neg hm]; exact ih bs

theorem jsTrunc_of_nonneg (q : ℚ) (h : 0 ≤ q) : jsTrunc q = ⌊q⌋ := by
  unfold jsTrunc
  rw [if_neg (not_lt.mpr h)]

/-- For a nonnegative number of seconds the code format and the format as
the specification words it agree: the JS remainder coincides with the
mathematical remainder. -/
theorem formatDuration_eq_spec (ds : ℚ) (h : 0 ≤ ds) :
    formatDuration ds = specDurationText ds := by
  unfold formatDuration specDurationText mathFloor jsRem
  rw [jsTrunc_of_nonneg _ (by positivity)]

theorem specDurationText_125 : specDurationText 125 = "2:05" := by
  have h1 : ⌊(125 : ℚ) / 60⌋ = 2 := by rw [Int.floor_eq_iff]; norm_num
  rw [specDurationText, h1]
  norm_num
  rfl

theorem specDurationText_0 : specDurationText 0 = "0:00" := by
  have h1 : ⌊(0 : ℚ) / 60⌋ = 0 := by norm_num
  rw [specDurationText, h1]
  norm_num
  rfl

theorem songDurationText_none (m : SongMeta) (h : m.duration = none) :
    songDurationText m = "0:00" := by
  rw [songDurationText, h, Option.getD_none,
    formatDuration_eq_spec 0 le_rfl, specDurationText_0]

/-- Evaluation of the song-upload handler on the success path. -/
theorem apiAddSong_success (db : DB) (f : FileUpload) (us : String)
    (meta : SongMeta) (nid pid : String)
    (hfil : fileFilterOk f.originalname f.mimetype = true)
    (hsz : f.size ≤ MAX_FILE_SIZE)
    (hpid : isValidObjectId pid = true)
    (htitle : songTitle meta f.originalname ≠ "") :
    apiAddSong db (some pid) (some f) us (.ok meta) nid =
      (.ok 201 ⟨nid, songTitle meta f.originalname, songArtist meta,
          songDurationText meta,
          "/uploads/" ++ storedFilename us f.originalname, pid⟩,
       ⟨db.playlists,
        db.songs ++ [⟨nid, songTitle meta f.originalname, songArtist meta,
          songDurationText meta,
          "/uploads/" ++ storedFilename us f.originalname, pid⟩],
        ("uploads/" ++ storedFilename us f.originalname) :: db.blobs⟩) := by
  simp only [apiAddSong, hfil, if_true, Nat.not_lt.mpr hsz, if_false,
    if_neg (Nat.not_lt.mpr hsz), hpid, htitle]
  rw [if_pos ⟨trivial, htitle⟩]

/-- Evaluation of the playlist-delete handler once the playlist was found. -/
theorem apiDeletePlaylist_found (db : DB) (id : String) (uf : String → Bool)
    (pl : Playlist)
    (hid : isValidObjectId id = true)
    (hfind : db.playlists.find? (fun p => decide (p.id = id)) = some pl) :
    apiDeletePlaylist db id uf =
      (match cascadeUnlink uf (songsFor db.songs id) db.blobs with
       | (some e, blobs2) =>
         (.err 500 e,
          ⟨db.playlists.filter (fun p => decide (p.id ≠ id)), db.songs, blobs2⟩)
       | (none, blobs2) =>
         (.ok 200 "Playlist and all songs deleted successfully",
          ⟨db.playlists.filter (fun p => decide (p.id ≠ id)),
           db.songs.filter (fun s => decide (s.playlistId ≠ id)), blobs2⟩)) := by
  unfold apiDeletePlaylist
  rw [if_pos hid, hfind]

/-! ### The claims -/

/-- Claim C1: for every successful addSong the stored duration string equals
floor of durationSeconds over 60, a colon, and the 2-digit zero-padded floor
of durationSeconds modulo 60, where durationSeconds is the extracted
duration or 0 when the extractor yields none; 125 seconds gives 2:05 and an
absent duration gives 0:00. -/
theorem addSong_duration_formats_as_spec (db : DB) (f : FileUpload)
    (us : String) (meta : SongMeta) (nid pid : String)
    (hfil : fileFilterOk f.originalname f.mimetype = true)
    (hsz : f.size ≤ MAX_FILE_SIZE)
    (hpid : isValidObjectId pid = true)
    (htitle : songTitle meta f.originalname ≠ "")
    (hd : 0 ≤ meta.duration.getD 0) :
    (∃ s db2, apiAddSong db (some pid) (some f) us (.ok meta) nid = (.ok 201 s, db2) ∧
      s.duration = specDurationText (meta.duration.getD 0)) ∧
    specDurationText 125 = "2:05" ∧
    (∀ m : SongMeta, m.duration = none → songDurationText m = "0:00") := by
  refine ⟨⟨_, _, apiAddSong_success db f us meta nid pid hfil hsz hpid htitle, ?_⟩,
    specDurationText_125, fun m hm => songDurationText_none m hm⟩
  exact formatDuration_eq_spec _ hd

/-- Witness for C1: the Foo-by-Bar 125-second upload is stored with
duration 2:05. -/
theorem addSong_duration_formats_as_spec_witness :
    (∃ s db2, apiAddSong exDb (some pidA) (some trackFile) "u1" (.ok metaFoo) "s0" =
        (.ok 201 s, db2) ∧
      s.duration = specDurationText (metaFoo.duration.getD 0)) ∧
    specDurationText 125 = "2:05" ∧
    (∀ m : SongMeta, m.duration = none → songDurationText m = "0:00") :=
  addSong_duration_formats_as_spec exDb trackFile "u1" metaFoo "s0" pidA
    (by decide) (by decide) (by decide) (by decide) (by decide)

/-- Claim C2 as stated is false: the extractor can report a present but
empty title tag, and the code then stores the filename minus extension, not
the extracted (empty) title, because the JS or-operator treats the empty
string as falsy. -/
theorem addSong_title_empty_tag_cex :
    metaEmptyTitle.title = some "" ∧
    createdTitle
      (apiAddSong exDb (some pidA) (some trackFile) "u2" (.ok metaEmptyTitle) "s2").1 =
        some "track" ∧
    ("track" : String) ≠ "" := by
  refine ⟨rfl, ?_, by decide⟩
  decide

/-- Claim C2, amended: the stored title equals the extracted title when it
is present and nonempty, and otherwise (absent or empty) the original
filename with its extension stripped; the stored artist equals the
extracted artist when present and nonempty, and otherwise the literal
Unknown Artist. -/
theorem addSong_title_artist_truthy (db : DB) (f : FileUpload) (us : String)
    (meta : SongMeta) (nid pid : String)
    (hfil : fileFilterOk f.originalname f.mimetype = true)
    (hsz : f.size ≤ MAX_FILE_SIZE)
    (hpid : isValidObjectId pid = true)
    (htitle : songTitle meta f.originalname ≠ "") :
    ∃ s db2, apiAddSong db (some pid) (some f) us (.ok meta) nid = (.ok 201 s, db2) ∧
      (∀ t, meta.title = some t → t ≠ "" → s.title = t) ∧
      ((meta.title = none ∨ meta.title = some "") →
        s.title = stripDotExt f.originalname) ∧
      (∀ a, meta.artist = some a → a ≠ "" → s.artist = a) ∧
      ((meta.artist = none ∨ meta.artist = some "") →
        s.artist = "Unknown Artist") := by
  refine ⟨_, _, apiAddSong_success db f us meta nid pid hfil hsz hpid htitle,
    ?_, ?_, ?_, ?_⟩
  · intro t ht hne
    simp [songTitle, jsOrStr, ht, hne]
  · rintro (ht | ht) <;> simp [songTitle, jsOrStr, ht]
  · intro a ha hne
    simp [songArtist, jsOrStr, ha, hne]
  · rintro (ha | ha) <;> simp [songArtist, jsOrStr, ha]

/-- Witness for amended C2: the untagged upload named track.mp3 yields title
track and artist Unknown Artist. -/
theorem addSong_title_artist_truthy_witness :
    ∃ s db2, apiAddSong exDb (some pidA) (some trackFile) "u2b" (.ok emptyMeta) "s2b" =
        (.ok 201 s, db2) ∧
      (∀ t, emptyMeta.title = some t → t ≠ "" → s.title = t) ∧
      ((emptyMeta.title = none ∨ emptyMeta.title = some "") →
        s.title = stripDotExt trackFile.originalname) ∧
      (∀ a, emptyMeta.artist = some a → a ≠ "" → s.artist = a) ∧
      ((emptyMeta.artist = none ∨ emptyMeta.artist = some "") →
        s.artist = "Unknown Artist") :=
  addSong_title_artist_truthy exDb trackFile "u2b" emptyMeta "s2b" pidA
    (by decide) (by decide) (by decide) (by decide)

/-- Claim C3 as stated is false: addSong performs no playlist-existence
check.  On an empty Playlist collection the upload still succeeds and
inserts a Song row whose playlistId references nothing. -/
theorem addSong_orphan_playlistId_cex :
    createdPlaylistId
      (apiAddSong exDb (some pidA) (some trackFile) "u3" (.ok emptyMeta) "s3").1 =
        some pidA ∧
    (apiAddSong exDb (some pidA) (some trackFile) "u3" (.ok emptyMeta) "s3").2.songs.length = 1 ∧
    (apiAddSong exDb (some pidA) (some trackFile) "u3" (.ok emptyMeta) "s3").2.playlists = [] := by
  refine ⟨?_, ?_, ?_⟩ <;> decide

/-- Claim C3, amended: addSong never verifies that the target playlist
exists; whenever the file passes the filter and size cap, extraction
succeeds, the playlistId is a castable object id and the computed title is
nonempty, the Song row is inserted with that playlistId for every store
state, including states holding no such playlist. -/
theorem addSong_no_playlist_existence_check (db : DB) (f : FileUpload)
    (us : String) (meta : SongMeta) (nid pid : String)
    (hfil : fileFilterOk f.originalname f.mimetype = true)
    (hsz : f.size ≤ MAX_FILE_SIZE)
    (hpid : isValidObjectId pid = true)
    (htitle : songTitle meta f.originalname ≠ "") :
    ∃ s, apiAddSong db (some pid) (some f) us (.ok meta) nid =
        (.ok 201 s,
         ⟨db.playlists, db.songs ++ [s],
          ("uploads/" ++ storedFilename us f.originalname) :: db.blobs⟩) ∧
      s.playlistId = pid :=
  ⟨_, apiAddSong_success db f us meta nid pid hfil hsz hpid htitle, rfl⟩

/-- Witness for amended C3: the insertion goes through on the empty store,
where no playlist at all exists. -/
theorem addSong_no_playlist_existence_check_witness :
    ∃ s, apiAddSong exDb (some pidA) (some trackFile) "u3b" (.ok emptyMeta) "s3b" =
        (.ok 201 s,
         ⟨exDb.playlists, exDb.songs ++ [s],
          ("uploads/" ++ storedFilename "u3b" trackFile.originalname) :: exDb.blobs⟩) ∧
      s.playlistId = pidA :=
  addSong_no_playlist_existence_check exDb trackFile "u3b" emptyMeta "s3b" pidA
    (by decide) (by decide) (by decide) (by decide)

/-- Claim C4: an upload whose extension or declared MIME type fails the
audio allow-list is rejected by the multer fileFilter before any bytes are
persisted: the response is the filter error and the store, songs and blobs
included, is exactly as before. -/
theorem addSong_rejects_nonaudio (db : DB) (pid : Option String)
    (f : FileUpload) (us : String) (xr : Except String SongMeta) (nid : String)
    (h : fileFilterOk f.originalname f.mimetype = false) :
    apiAddSong db pid (some f) us xr nid =
      (.err 500 "Only audio files are allowed", db) := by
  simp [apiAddSong, h]

/-- Witness for C4: document.pdf with MIME application/pdf is rejected and
the store is untouched. -/
theorem addSong_rejects_nonaudio_witness :
    apiAddSong exDb (some pidA) (some pdfFile) "u4" (.ok emptyMeta) "s4" =
      (.err 500 "Only audio files are allowed", exDb) :=
  addSong_rejects_nonaudio exDb (some pidA) pdfFile "u4" (.ok emptyMeta) "s4" (by decide)

/-- Claim C5 as stated is false: when unlinking the first blob of the
cascade throws, the error is not swallowed.  The handler answers 500, the
second blob stays on disk and both song rows stay in the store. -/
theorem deletePlaylist_unlink_error_cex :
    apiDeletePlaylist dbC5 pidA failB1 =
      (.err 500 "EPERM: operation not permitted, unlink",
       ⟨[], [s1, s2], ["uploads/b1.mp3", "uploads/b2.mp3"]⟩) ∧
    s2 ∈ (apiDeletePlaylist dbC5 pidA failB1).2.songs ∧
    "uploads/b2.mp3" ∈ (apiDeletePlaylist dbC5 pidA failB1).2.blobs := by
  refine ⟨?_, ?_, ?_⟩ <;> decide

/-- Claim C5, amended: missing blob files are tolerated by the existsSync
guard, so a cascade over absent blobs still completes; but when an unlink
itself throws, the exception propagates to the catch: the handler answers
500 with the playlist row already removed, the remaining blobs are not
unlinked and the song rows are not deleted. -/
theorem deletePlaylist_cleanup_error_propagates (db : DB) (id : String)
    (uf : String → Bool) (pl : Playlist)
    (hid : isValidObjectId id = true)
    (hfind : db.playlists.find? (fun p => decide (p.id = id)) = some pl) :
    ((∀ b, uf b = false) →
      apiDeletePlaylist db id uf =
        (.ok 200 "Playlist and all songs deleted successfully",
         ⟨db.playlists.filter (fun p => decide (p.id ≠ id)),
          db.songs.filter (fun s => decide (s.playlistId ≠ id)),
          (cascadeUnlink uf (songsFor db.songs id) db.blobs).2⟩)) ∧
    (∀ e blobs2, cascadeUnlink uf (songsFor db.songs id) db.blobs = (some e, blobs2) →
      apiDeletePlaylist db id uf =
        (.err 500 e,
         ⟨db.playlists.filter (fun p => decide (p.id ≠ id)), db.songs, blobs2⟩)) := by
  constructor
  · intro hok
    have h1 : (cascadeUnlink uf (songsFor db.songs id) db.blobs).1 = none :=
      cascadeUnlink_no_throws uf hok _ _
    rcases hcasc : cascadeUnlink uf (songsFor db.songs id) db.blobs with ⟨o, bs2⟩
    rw [hcasc] at h1
    simp only at h1
    subst h1
    rw [apiDeletePlaylist_found db id uf pl hid hfind, hcasc]
  · intro e blobs2 hcasc
    rw [apiDeletePlaylist_found db id uf pl hid hfind, hcasc]

/-- Witness for amended C5: with a filesystem that never throws, the same
two-song playlist is fully cascaded: both rows and both blobs are gone. -/
theorem deletePlaylist_cleanup_error_propagates_witness :
    apiDeletePlaylist dbC5 pidA (fun _ => false) =
      (.ok 200 "Playlist and all songs deleted successfully",
       ⟨dbC5.playlists.filter (fun p => decide (p.id ≠ pidA)),
        dbC5.songs.filter (fun s => decide (s.playlistId ≠ pidA)),
        (cascadeUnlink (fun _ => false) (songsFor dbC5.songs pidA) dbC5.blobs).2⟩) :=
  (deletePlaylist_cleanup_error_propagates dbC5 pidA (fun _ => false) pl1
    (by decide) (by decide)).1 (fun _ => rfl)

/-- Claim C6: when the extractor throws after the blob was stored, the whole
operation fails, no Song row is inserted, and the stored blob stays on disk,
orphaned. -/
theorem addSong_extractor_failure_orphans_blob (db : DB) (pid : Option String)
    (f : FileUpload) (us e nid : String)
    (hfil : fileFilterOk f.originalname f.mimetype = true)
    (hsz : f.size ≤ MAX_FILE_SIZE) :
    apiAddSong db pid (some f) us (.error e) nid =
      (.err 500 e,
       ⟨db.playlists, db.songs,
        ("uploads/" ++ storedFilename us f.originalname) :: db.blobs⟩) := by
  simp [apiAddSong, hfil, Nat.not_lt.mpr hsz]

/-- Witness for C6: a corrupt upload fails after its blob was stored; the
blob is kept, no song row appears. -/
theorem addSong_extractor_failure_orphans_blob_witness :
    apiAddSong exDb (some pidA) (some trackFile) "u6" (.error "corrupt") "s6" =
      (.err 500 "corrupt",
       ⟨exDb.playlists, exDb.songs,
        ("uploads/" ++ storedFilename "u6" trackFile.originalname) :: exDb.blobs⟩) :=
  addSong_extractor_failure_orphans_blob exDb (some pidA) trackFile "u6" "corrupt" "s6"
    (by decide) (by decide)

/-- Claim C7: listing playlists returns all Playlist records in
non-increasing order of creation time. -/
theorem getPlaylists_sorted_newest_first (db : DB) :
    List.Sorted newestFirst (apiGetPlaylists db) ∧
    List.Perm (apiGetPlaylists db) db.playlists :=
  ⟨List.sorted_insertionSort newestFirst db.playlists,
   List.perm_insertionSort newestFirst db.playlists⟩

/-- Claim C8: a successful deletePlaylist removes exactly the playlist row
with the requested id and the song rows referencing it; every other
playlist and song row is kept. -/
theorem deletePlaylist_frame (db : DB) (id : String) (uf : String → Bool)
    (m : String) (db2 : DB)
    (h : apiDeletePlaylist db id uf = (.ok 200 m, db2)) :
    db2.playlists = db.playlists.filter (fun p => decide (p.id ≠ id)) ∧
    db2.songs = db.songs.filter (fun s => decide (s.playlistId ≠ id)) := by
  simp only [apiDeletePlaylist] at h
  split at h
  · split at h
    · simp at h
    · split at h
      · simp at h
      · obtain ⟨-, h2⟩ := Prod.mk.injEq .. |>.mp h
        subst h2
        exact ⟨rfl, rfl⟩
  · simp at h

/-- Witness for C8: on the concrete two-song store the successful delete
leaves exactly the filtered collections. -/
theorem deletePlaylist_frame_witness :
    (⟨[], [], []⟩ : DB).playlists = dbC5.playlists.filter (fun p => decide (p.id ≠ pidA)) ∧
    (⟨[], [], []⟩ : DB).songs = dbC5.songs.filter (fun s => decide (s.playlistId ≠ pidA)) :=
  deletePlaylist_frame dbC5 pidA (fun _ => false)
    "Playlist and all songs deleted successfully" ⟨[], [], []⟩ (by decide)

/-- Claim C9: a valid audio upload with a missing or malformed playlistId
first stores the blob, then fails the Song validation: the response is a
500 error, no Song row exists afterwards, and the stored blob stays,
orphaned. -/
theorem addSong_bad_playlistId_orphans_blob (db : DB) (pid : Option String)
    (f : FileUpload) (us : String) (meta : SongMeta) (nid : String)
    (hfil : fileFilterOk f.originalname f.mimetype = true)
    (hsz : f.size ≤ MAX_FILE_SIZE)
    (hbad : pid = none ∨ ∃ p, pid = some p ∧ isValidObjectId p = false) :
    ∃ msg, apiAddSong db pid (some f) us (.ok meta) nid =
      (.err 500 msg,
       ⟨db.playlists, db.songs,
        ("uploads/" ++ storedFilename us f.originalname) :: db.blobs⟩) := by
  rcases hbad with h | ⟨p, hp, hv⟩
  · subst h
    exact ⟨"Song validation failed: playlistId is required",
      by simp [apiAddSong, hfil, Nat.not_lt.mpr hsz]⟩
  · subst hp
    refine ⟨"Song validation failed", ?_⟩
    simp [apiAddSong, hfil, Nat.not_lt.mpr hsz, hv]

/-- Witness for C9: a malformed playlistId string leaves a 500 error, no
song row and an orphaned blob. -/
theorem addSong_bad_playlistId_orphans_blob_witness :
    ∃ msg, apiAddSong exDb (some "bad id") (some trackFile) "u9" (.ok emptyMeta) "s9" =
      (.err 500 msg,
       ⟨exDb.playlists, exDb.songs,
        ("uploads/" ++ storedFilename "u9" trackFile.originalname) :: exDb.blobs⟩) :=
  addSong_bad_playlistId_orphans_blob exDb (some "bad id") trackFile "u9" emptyMeta "s9"
    (by decide) (by decide) (Or.inr ⟨"bad id", rfl, by decide⟩)

/-- Claim C10: a syntactically malformed playlist id makes the lookup throw
a cast error, answered as a 500 error object, not as the 404 reserved for a
well-formed but unknown id. -/
theorem getPlaylistById_malformed_id_500 (db : DB) (id : String)
    (hid : isValidObjectId id = false) :
    apiGetPlaylistById db id = .err 500 "Cast to ObjectId failed" ∧
    apiGetPlaylistById db id ≠ .err 404 "Playlist not found" ∧
    (∀ id2, isValidObjectId id2 = true →
      db.playlists.find? (fun p => decide (p.id = id2)) = none →
      apiGetPlaylistById db id2 = .err 404 "Playlist not found") := by
  refine ⟨?_, ?_, ?_⟩
  · simp [apiGetPlaylistById, hid]
  · simp [apiGetPlaylistById, hid]
  · intro id2 h1 h2
    simp [apiGetPlaylistById, h1, h2]

/-- Witness for C10: the id "nope" yields a 500 error while a well-formed
unknown id yields the 404. -/
theorem getPlaylistById_malformed_id_500_witness :
    apiGetPlaylistById exDb "nope" = .err 500 "Cast to ObjectId failed" ∧
    apiGetPlaylistById exDb pidA = .err 404 "Playlist not found" :=
  ⟨(getPlaylistById_malformed_id_500 exDb "nope" (by decide)).1,
   (getPlaylistById_malformed_id_500 exDb "nope" (by decide)).2.2 pidA
     (by decide) (by decide)⟩

end MusicApp
